import Mathlib

/-!
LLD-Practise: the metrics dispatcher (5.cpp) and the checkout flow (Questions/1.cpp)

Both programs are straight-line object-oriented C++ whose only observable
behaviour is the sequence of lines written to std::cout.  The embedding keeps

* every C++ object pointer as a value of `Ptr`, which may be null or never
  initialised, so that dereferencing it can go wrong;
* every call as a function returning a `Run`: the effects performed so far, in
  order, and the way the call ended;
* every virtual call as a `match` on the dynamic class of the receiver.
-/

/-! ## Pointers and call outcomes (shared by both programs) -/

/-- A C++ object pointer: never written (indeterminate), null, or pointing to a
live object. -/
inductive Ptr (α : Type) where
  | uninit : Ptr α
  | null : Ptr α
  | to (obj : α) : Ptr α
  deriving DecidableEq, Repr

/-- How a C++ call ends: it returns, it is left by an exception, or it has
undefined behaviour (here always: a member call through a pointer that does not
point to an object).  No function of the repository contains a throw
expression, so `threw` only ever comes from a client class written outside it. -/
inductive Status where
  | returned : Status
  | threw (what : String) : Status
  | undefined : Status
  deriving DecidableEq, Repr

/-- Does the call report an error to its caller?  The return types are all void
(or a plain double), so an exception is the only channel. -/
def Status.reportsError : Status → Bool
  | .threw _ => true
  | _ => false

/-- Outcome of a call: the effects it performed, oldest first, and its status.
When the status is not `returned` the trace holds what was done before the
call was abandoned. -/
structure Run (ε : Type) where
  trace : List ε
  status : Status
  deriving DecidableEq, Repr

namespace Run

/-- A statement that performs the single effect `e` and falls through. -/
def emit {ε : Type} (e : ε) : Run ε := ⟨[e], .returned⟩

/-- The empty statement. -/
def done {ε : Type} : Run ε := ⟨[], .returned⟩

/-- A member call through a pointer that holds no object. -/
def fault {ε : Type} : Run ε := ⟨[], .undefined⟩

/-- Sequencing `r; k`: the statements of `k` run only when `r` returned; an
exception or undefined behaviour in `r` abandons the rest (the repository has
no try block). -/
def seq {ε : Type} (r k : Run ε) : Run ε :=
  match r.status with
  | .returned => ⟨r.trace ++ k.trace, k.status⟩
  | _ => r

end Run

/-! ## 5.cpp: metrics dispatcher -/

namespace Metrics

/-- The observable actions of 5.cpp.  Each of the five cout statements of the
file is one effect; `text` gives the characters it writes.  `foreign` stands for
whatever a client class defined outside the file does. -/
inductive Effect where
  | gaSdkLog (event payload : String) : Effect
  | mixpanelSdkSend (event payload : String) : Effect
  | internalSdkPush (event payload : String) : Effect
  | logLine (name : String) : Effect
  | bufferLine : Effect
  | foreign (what : String) : Effect
  deriving DecidableEq, Repr

/-- The characters an effect writes to std::cout. -/
def Effect.text : Effect → String
  | .gaSdkLog event payload => "[GA SDK] " ++ event ++ " -> " ++ payload ++ "\n"
  | .mixpanelSdkSend event payload => "[Mixpanel SDK] " ++ event ++ " -> " ++ payload ++ "\n"
  | .internalSdkPush event payload => "[Internal SDK] " ++ event ++ " -> " ++ payload ++ "\n"
  | .logLine name => "[LOG] Tracking event: " ++ name ++ "\n"
  | .bufferLine => "[BUFFER] Buffering event\n"
  | .foreign what => what

/-- Is the effect a call into one of the three backend SDKs? -/
def Effect.isBackend : Effect → Bool
  | .gaSdkLog _ _ => true
  | .mixpanelSdkSend _ _ => true
  | .internalSdkPush _ _ => true
  | _ => false

/-- Everything a run wrote to std::cout. -/
def stdout (r : Run Effect) : String :=
  String.join (r.trace.map Effect.text)

/-- GoogleAnalyticsSdk::log (5.cpp 21-23). -/
def GoogleAnalyticsSdk.log (event payload : String) : Run Effect :=
  Run.emit (.gaSdkLog event payload)

/-- MixpanelSdk::send (5.cpp 28-30). -/
def MixpanelSdk.send (event payload : String) : Run Effect :=
  Run.emit (.mixpanelSdkSend event payload)

/-- InternalAnalyticsSdk::push (5.cpp 35-37). -/
def InternalAnalyticsSdk.push (event payload : String) : Run Effect :=
  Run.emit (.internalSdkPush event payload)

/-- GoogleAnalyticsAdapter::trackEvent (5.cpp 47-49). -/
def GoogleAnalyticsAdapter.trackEvent (name data : String) : Run Effect :=
  GoogleAnalyticsSdk.log name data

/-- MixpanelAdapter::trackEvent (5.cpp 55-57). -/
def MixpanelAdapter.trackEvent (name data : String) : Run Effect :=
  MixpanelSdk.send name data

/-- InternalAnalyticsAdapter::trackEvent (5.cpp 63-65). -/
def InternalAnalyticsAdapter.trackEvent (name data : String) : Run Effect :=
  InternalAnalyticsSdk.push name data

/-- The dynamic class of a MetricsClient object.  The three adapters own their
SDK by value; a decorator stores the pointer it was constructed with, unchecked
(5.cpp 76).  MetricsClient is an abstract interface, so a caller may also pass an
object of a class of its own: `other impl`, whose trackEvent behaves as `impl`. -/
inductive MetricsClient where
  | googleAnalyticsAdapter : MetricsClient
  | mixpanelAdapter : MetricsClient
  | internalAnalyticsAdapter : MetricsClient
  | loggingMetricsDecorator (wrappee : Ptr MetricsClient) : MetricsClient
  | bufferedMetricsDecorator (wrappee : Ptr MetricsClient) : MetricsClient
  | other (impl : String → String → Run Effect) : MetricsClient

/-- The virtual call c.trackEvent(name, data), resolved on the class of c. -/
def MetricsClient.trackEvent : MetricsClient → String → String → Run Effect
  | .googleAnalyticsAdapter, name, data => GoogleAnalyticsAdapter.trackEvent name data
  | .mixpanelAdapter, name, data => MixpanelAdapter.trackEvent name data
  | .internalAnalyticsAdapter, name, data => InternalAnalyticsAdapter.trackEvent name data
  | .loggingMetricsDecorator wrappee, name, data =>
      -- 5.cpp 88-89
      (Run.emit (.logLine name)).seq
        (match wrappee with
         | .to c => c.trackEvent name data
         | _ => Run.fault)
  | .bufferedMetricsDecorator wrappee, name, data =>
      -- 5.cpp 98-99
      (Run.emit .bufferLine).seq
        (match wrappee with
         | .to c => c.trackEvent name data
         | _ => Run.fault)
  | .other impl, name, data => impl name data

/-- The expression p->trackEvent(name, data) for a client pointer p. -/
def callTrackEvent (p : Ptr MetricsClient) (name data : String) : Run Effect :=
  match p with
  | .to c => c.trackEvent name data
  | _ => Run.fault

/-- SingleProviderStrategy::sendEvent (5.cpp 121-123) on the stored client. -/
def SingleProviderStrategy.sendEvent (client : Ptr MetricsClient)
    (name data : String) : Run Effect :=
  callTrackEvent client name data

/-- MultiProviderStrategy::sendEvent (5.cpp 131-135): the range-for over the
stored vector, front to back. -/
def MultiProviderStrategy.sendEvent :
    List (Ptr MetricsClient) → String → String → Run Effect
  | [], _, _ => Run.done
  | c :: rest, name, data =>
      (callTrackEvent c name data).seq (MultiProviderStrategy.sendEvent rest name data)

/-- The dynamic class of a MetricsStrategy object, with the member its
constructor stores unchecked (5.cpp 119, 129). -/
inductive MetricsStrategy where
  | singleProviderStrategy (client : Ptr MetricsClient) : MetricsStrategy
  | multiProviderStrategy (clients : List (Ptr MetricsClient)) : MetricsStrategy

/-- The virtual call s.sendEvent(name, data). -/
def MetricsStrategy.sendEvent : MetricsStrategy → String → String → Run Effect
  | .singleProviderStrategy client, name, data =>
      SingleProviderStrategy.sendEvent client name data
  | .multiProviderStrategy clients, name, data =>
      MultiProviderStrategy.sendEvent clients name data

/-- MetricsManager (5.cpp 142-152): one strategy pointer. -/
structure MetricsManager where
  strategy : Ptr MetricsStrategy

/-- The declaration `MetricsManager manager;` (5.cpp 173): the class has no
constructor and no member initialiser, so the pointer is left indeterminate. -/
def MetricsManager.fresh : MetricsManager := ⟨.uninit⟩

/-- MetricsManager::setStrategy (5.cpp 145-147). -/
def MetricsManager.setStrategy (_m : MetricsManager) (s : Ptr MetricsStrategy) :
    MetricsManager :=
  ⟨s⟩

/-- MetricsManager::track (5.cpp 149-151); it writes no member, so the manager
is unchanged by it. -/
def MetricsManager.track (m : MetricsManager) (name data : String) : Run Effect :=
  match m.strategy with
  | .to s => s.sendEvent name data
  | _ => Run.fault

/-- Function main of 5.cpp (158-179). -/
def main : Run Effect :=
  let ga : Ptr MetricsClient := .to .googleAnalyticsAdapter
  let mp : Ptr MetricsClient := .to .mixpanelAdapter
  let loggedGa : Ptr MetricsClient := .to (.loggingMetricsDecorator ga)
  let providers : List (Ptr MetricsClient) := [loggedGa, mp]
  let strategy : Ptr MetricsStrategy := .to (.multiProviderStrategy providers)
  let manager := MetricsManager.fresh
  let manager := manager.setStrategy strategy
  manager.track "UserSignup" "\x7buserId:42\x7d"

/-! ### Emitters assembled from the classes of 5.cpp -/

/-- The three adapter classes. -/
inductive Adapter where
  | googleAnalytics : Adapter
  | mixpanel : Adapter
  | internalAnalytics : Adapter
  deriving DecidableEq, Repr

/-- The two concrete decorator classes. -/
inductive Wrapper where
  | logging : Wrapper
  | buffered : Wrapper
  deriving DecidableEq, Repr

/-- The expression `new XAdapter()`. -/
def Adapter.client : Adapter → MetricsClient
  | .googleAnalytics => .googleAnalyticsAdapter
  | .mixpanel => .mixpanelAdapter
  | .internalAnalytics => .internalAnalyticsAdapter

/-- The backend side effect of the adapter for one event. -/
def Adapter.backendEffect : Adapter → String → String → Effect
  | .googleAnalytics, event, payload => .gaSdkLog event payload
  | .mixpanel, event, payload => .mixpanelSdkSend event payload
  | .internalAnalytics, event, payload => .internalSdkPush event payload

/-- The expression `new XMetricsDecorator(inner)` for a live object inner. -/
def Wrapper.wrap : Wrapper → MetricsClient → MetricsClient
  | .logging, inner => .loggingMetricsDecorator (.to inner)
  | .buffered, inner => .bufferedMetricsDecorator (.to inner)

/-- The action of the decorator itself, before it delegates. -/
def Wrapper.action : Wrapper → String → Effect
  | .logging, name => .logLine name
  | .buffered, _ => .bufferLine

/-- The emitter ws[0](ws[1](... (adapter))): the wrappers of `ws` around one
adapter, the head of the list outermost. -/
def stack : List Wrapper → Adapter → MetricsClient
  | [], a => a.client
  | w :: ws, a => w.wrap (stack ws a)

/-- An emitter assembled from the classes of 5.cpp alone: any number of
decorators, outermost first, around one adapter. -/
structure Emitter where
  wrappers : List Wrapper
  adapter : Adapter
  deriving DecidableEq, Repr

/-- The object the emitter denotes. -/
def Emitter.client (e : Emitter) : MetricsClient :=
  stack e.wrappers e.adapter

end Metrics

/-! ## Questions/1.cpp: checkout flow -/

namespace Checkout

/-- Dynamic class of a PaymentStrategy object (1.cpp 23-42). -/
inductive PaymentStrategy where
  | creditCardPayment : PaymentStrategy
  | upiPayment : PaymentStrategy
  | walletPayment : PaymentStrategy
  deriving DecidableEq, Repr

/-- Dynamic class of a DiscountStrategy object (1.cpp 48-70). -/
inductive DiscountStrategy where
  | couponDiscount : DiscountStrategy
  | festivalDiscount : DiscountStrategy
  | loyaltyDiscount : DiscountStrategy
  deriving DecidableEq, Repr

/-- The four kinds of cout statement of 1.cpp, with the double each one prints:
line 109, the line of a discount class, line 111, the line of a payment class. -/
inductive Effect where
  | originalAmount (amount : Float) : Effect
  | applying (d : DiscountStrategy) : Effect
  | finalAmount (amount : Float) : Effect
  | paid (p : PaymentStrategy) (amount : Float) : Effect

/-- One operand of a chain of stream insertions. -/
inductive Tok where
  | str (s : String) : Tok
  | num (x : Float) : Tok

/-- The operands an effect inserts into std::cout, in order. -/
def Effect.toks : Effect → List Tok
  | .originalAmount amount => [.str "Original Amount: ", .num amount, .str "\n"]
  | .applying .couponDiscount => [.str "Applying Coupon Discount (10%)\n"]
  | .applying .festivalDiscount => [.str "Applying Festival Discount (20%)\n"]
  | .applying .loyaltyDiscount => [.str "Applying Loyalty Discount (â‚¹100 off)\n"]
  | .finalAmount amount => [.str "Final Amount: ", .num amount, .str "\n"]
  | .paid .creditCardPayment amount => [.str "Paid ", .num amount, .str " using Credit Card\n"]
  | .paid .upiPayment amount => [.str "Paid ", .num amount, .str " using UPI\n"]
  | .paid .walletPayment amount => [.str "Paid ", .num amount, .str " using Wallet\n"]

/-- The virtual call p.pay(amount) (1.cpp 25-27, 32-34, 39-41). -/
def PaymentStrategy.pay (p : PaymentStrategy) (amount : Float) : Run Effect :=
  Run.emit (.paid p amount)

/-- The virtual call d.apply(amount) (1.cpp 50-53, 58-61, 66-69): what it
prints and the double it returns. -/
def DiscountStrategy.apply : DiscountStrategy → Float → Run Effect × Float
  | .couponDiscount, amount => (Run.emit (.applying .couponDiscount), amount * 0.90)
  | .festivalDiscount, amount => (Run.emit (.applying .festivalDiscount), amount * 0.80)
  | .loyaltyDiscount, amount => (Run.emit (.applying .loyaltyDiscount), amount - 100)

/-- PaymentFactory::createPayment (1.cpp 78-83). -/
def PaymentFactory.createPayment (type : String) : Ptr PaymentStrategy :=
  if type = "credit" then .to .creditCardPayment
  else if type = "upi" then .to .upiPayment
  else if type = "wallet" then .to .walletPayment
  else .null

/-- DiscountFactory::createDiscount (1.cpp 88-93). -/
def DiscountFactory.createDiscount (type : String) : Ptr DiscountStrategy :=
  if type = "coupon" then .to .couponDiscount
  else if type = "festival" then .to .festivalDiscount
  else if type = "loyalty" then .to .loyaltyDiscount
  else .null

/-- CheckoutService (1.cpp 100-106): the two pointers, stored unchecked. -/
structure CheckoutService where
  payment : Ptr PaymentStrategy
  discount : Ptr DiscountStrategy

/-- CheckoutService::checkout (1.cpp 108-113). -/
def CheckoutService.checkout (s : CheckoutService) (amount : Float) : Run Effect :=
  (Run.emit (.originalAmount amount)).seq
    (match s.discount with
     | .to d =>
         let applied := d.apply amount
         let finalAmount := applied.2
         applied.1.seq
           ((Run.emit (.finalAmount finalAmount)).seq
             (match s.payment with
              | .to p => p.pay finalAmount
              | _ => Run.fault))
     | _ => Run.fault)

/-- Function main of 1.cpp (120-131). -/
def main : Run Effect :=
  let payment := PaymentFactory.createPayment "upi"
  let discount := DiscountFactory.createDiscount "festival"
  let checkout : CheckoutService := ⟨payment, discount⟩
  checkout.checkout 1000

end Checkout

/-! ## Lemmas on sequencing -/

namespace Run

theorem emit_seq {ε : Type} (e : ε) (k : Run ε) :
    (emit e).seq k = ⟨e :: k.trace, k.status⟩ := rfl

theorem seq_of_returned {ε : Type} (r k : Run ε) (h : r.status = .returned) :
    r.seq k = ⟨r.trace ++ k.trace, k.status⟩ := by
  cases r with
  | mk t st =>
    cases h
    rfl

theorem seq_of_threw {ε : Type} (r k : Run ε) (what : String)
    (h : r.status = .threw what) : r.seq k = r := by
  cases r with
  | mk t st =>
    cases h
    rfl

end Run

namespace Metrics

/-! ## Lemmas on the dispatcher -/

theorem stdout_single (e : Effect) (st : Status) : stdout ⟨[e], st⟩ = e.text := by
  simp [stdout, String.join]

theorem wrap_trackEvent (w : Wrapper) (inner : MetricsClient) (name data : String) :
    (w.wrap inner).trackEvent name data
      = (Run.emit (w.action name)).seq (inner.trackEvent name data) := by
  cases w <;> simp [Wrapper.wrap, Wrapper.action, MetricsClient.trackEvent]

theorem adapter_trackEvent (a : Adapter) (name data : String) :
    a.client.trackEvent name data = ⟨[a.backendEffect name data], .returned⟩ := by
  cases a <;> rfl

/-- A stack of decorators over an adapter runs every decorator action from the
outside in, then the backend call, and returns. -/
theorem stack_run (ws : List Wrapper) (a : Adapter) (name data : String) :
    (stack ws a).trackEvent name data
      = ⟨ws.map (fun w => w.action name) ++ [a.backendEffect name data], .returned⟩ := by
  induction ws with
  | nil => simpa [stack] using adapter_trackEvent a name data
  | cons w ws ih => simp [stack, wrap_trackEvent, ih, Run.emit_seq]

/-- The range-for over live targets that all return: every target is called
once, front to back. -/
theorem sendEvent_all_returned (ts : List MetricsClient) (name data : String)
    (h : ∀ t ∈ ts, (t.trackEvent name data).status = .returned) :
    MultiProviderStrategy.sendEvent (ts.map Ptr.to) name data
      = ⟨ts.flatMap (fun t => (t.trackEvent name data).trace), .returned⟩ := by
  induction ts with
  | nil => rfl
  | cons t ts ih =>
    have ht : (t.trackEvent name data).status = .returned := h t (List.mem_cons_self t ts)
    have hts : ∀ u ∈ ts, (u.trackEvent name data).status = .returned :=
      fun u hu => h u (List.mem_cons_of_mem t hu)
    simp [MultiProviderStrategy.sendEvent, callTrackEvent, ih hts,
      Run.seq_of_returned _ _ ht, List.flatMap_cons]

end Metrics

/-! ## The metrics dispatcher: properties -/

namespace Metrics

/-- Claim C1. For every event and every list of targets assembled from the
adapters and decorators of 5.cpp, a MultiProviderStrategy over that list calls
trackEvent once per list position, from the front to the back, each time with
the same name and data: sendEvent returns and its trace is the concatenation,
in list order, of the traces of the individual targets. A target listed twice
contributes its trace twice. -/
theorem multiProvider_sendEvent_in_order (es : List Emitter) (name data : String) :
    (MetricsStrategy.multiProviderStrategy
        (es.map (fun e => Ptr.to e.client))).sendEvent name data
      = ⟨es.flatMap (fun e => (e.client.trackEvent name data).trace), .returned⟩ := by
  have h : ∀ t ∈ es.map Emitter.client, (t.trackEvent name data).status = .returned := by
    intro t ht
    obtain ⟨e, _, rfl⟩ := List.mem_map.1 ht
    simp [Emitter.client, stack_run]
  have key := sendEvent_all_returned (es.map Emitter.client) name data h
  simpa [MetricsStrategy.sendEvent, List.map_map, List.flatMap_def, Function.comp_def]
    using key

/-- Claim C2. For every event and every stack of LoggingMetricsDecorator and
BufferedMetricsDecorator objects over one adapter, trackEvent performs the
action of each decorator exactly once, the outermost first and the innermost
last, then the backend call of the adapter exactly once and last, and returns. -/
theorem decorator_stack_order (ws : List Wrapper) (a : Adapter) (name data : String) :
    (stack ws a).trackEvent name data
      = ⟨ws.map (fun w => w.action name) ++ [a.backendEffect name data], .returned⟩ :=
  stack_run ws a name data

/-- Claim C3. For every event and every target object, a SingleProviderStrategy
over that target does exactly what one call of the trackEvent of the target
does with the same name and data, and nothing else. -/
theorem singleProvider_sendEvent_eq (target : MetricsClient) (name data : String) :
    (MetricsStrategy.singleProviderStrategy (.to target)).sendEvent name data
      = target.trackEvent name data :=
  rfl

/-- Claim C4, as stated, fails: track on a manager that never received a
strategy does not report an error; it calls through the indeterminate pointer. -/
theorem track_without_strategy_not_reported :
    (MetricsManager.fresh.track "UserSignup" "\x7buserId:42\x7d").status = .undefined
    ∧ (MetricsManager.fresh.track "UserSignup" "\x7buserId:42\x7d").status.reportsError
        = false := by
  decide

/-- Claim C4, amended. For every name and payload, track on a manager on which
setStrategy was never called performs no check: it calls sendEvent through the
strategy pointer that was never written, which is undefined behaviour and not a
reported error, and no effect precedes that call. -/
theorem track_without_strategy (name data : String) :
    MetricsManager.fresh.track name data = ⟨[], .undefined⟩ :=
  rfl

/-- Claim C5. For all strategies p1, p2 and events e1, e2, and whatever the
manager held before, setStrategy(p1); track(e1); setStrategy(p2); track(e2)
does p1.sendEvent(e1) and then p2.sendEvent(e2); the first track is p1 alone,
the second is p2 alone, and after setStrategy(p) every track is p.sendEvent. -/
theorem setStrategy_swap (m : MetricsManager) (p1 p2 : MetricsStrategy)
    (n1 d1 n2 d2 : String) :
    ((m.setStrategy (.to p1)).track n1 d1).seq
        ((((m.setStrategy (.to p1)).setStrategy (.to p2))).track n2 d2)
      = (p1.sendEvent n1 d1).seq (p2.sendEvent n2 d2)
    ∧ (m.setStrategy (.to p1)).track n1 d1 = p1.sendEvent n1 d1
    ∧ ((m.setStrategy (.to p1)).setStrategy (.to p2)).track n2 d2 = p2.sendEvent n2 d2
    ∧ ∀ (p : MetricsStrategy) (name data : String),
        (m.setStrategy (.to p)).track name data = p.sendEvent name data :=
  ⟨rfl, rfl, rfl, fun _ _ _ => rfl⟩

/-- Claim C6. The program main of 5.cpp (a MultiProviderStrategy over
[LoggingMetricsDecorator(GoogleAnalyticsAdapter), MixpanelAdapter] installed in
a MetricsManager, then track of UserSignup) performs exactly three effects: the
log line, then the Google Analytics call, then the Mixpanel call, both backend
calls with the name UserSignup and the payload unchanged; it returns, two of
its effects are backend calls, and what it prints is the three lines below. -/
theorem main_trace :
    main = ⟨[.logLine "UserSignup",
             .gaSdkLog "UserSignup" "\x7buserId:42\x7d",
             .mixpanelSdkSend "UserSignup" "\x7buserId:42\x7d"], .returned⟩
    ∧ (main.trace.filter Effect.isBackend).length = 2
    ∧ main.trace.count (.logLine "UserSignup") = 1
    ∧ stdout main = "[LOG] Tracking event: UserSignup\n[GA SDK] UserSignup -> \x7buserId:42\x7d\n[Mixpanel SDK] UserSignup -> \x7buserId:42\x7d\n" := by
  decide

/-- Claim C7, as stated, fails: a SingleProviderStrategy is constructed over a
null client without complaint, and sendEvent on it, also when reached through
MetricsManager.track, reports no error; it calls through the null pointer. -/
theorem singleProvider_null_not_reported :
    ((MetricsStrategy.singleProviderStrategy .null).sendEvent
        "UserSignup" "\x7buserId:42\x7d").status = .undefined
    ∧ ((MetricsStrategy.singleProviderStrategy .null).sendEvent
        "UserSignup" "\x7buserId:42\x7d").status.reportsError = false
    ∧ ((MetricsManager.fresh.setStrategy
          (.to (.singleProviderStrategy .null))).track
        "UserSignup" "\x7buserId:42\x7d").status.reportsError = false := by
  decide

/-- Claim C7, amended. The constructor of SingleProviderStrategy stores a null
client unchecked, and for every event sendEvent on that strategy, directly or
through track of a manager holding it, performs no check: it calls trackEvent
through the null pointer, which is undefined behaviour and not a reported
error, and no effect precedes that call. -/
theorem singleProvider_null (m : MetricsManager) (name data : String) :
    (MetricsStrategy.singleProviderStrategy .null).sendEvent name data = ⟨[], .undefined⟩
    ∧ (m.setStrategy (.to (.singleProviderStrategy .null))).track name data
        = ⟨[], .undefined⟩ :=
  ⟨rfl, rfl⟩

/-- Claim C8, as stated, fails: with a first target whose trackEvent throws and
MixpanelAdapter as second target, track is left by the exception of the first
target with an empty trace; MixpanelAdapter, which on its own returns, is never
called. -/
theorem multiProvider_not_best_effort :
    ((MetricsClient.other (fun _ _ => ⟨[], .threw "backend A unreachable"⟩)).trackEvent
        "UserSignup" "\x7buserId:42\x7d").status = .threw "backend A unreachable"
    ∧ MetricsClient.mixpanelAdapter.trackEvent "UserSignup" "\x7buserId:42\x7d"
        = ⟨[.mixpanelSdkSend "UserSignup" "\x7buserId:42\x7d"], .returned⟩
    ∧ (MetricsManager.fresh.setStrategy
          (.to (.multiProviderStrategy
            [.to (.other (fun _ _ => ⟨[], .threw "backend A unreachable"⟩)),
             .to .mixpanelAdapter]))).track "UserSignup" "\x7buserId:42\x7d"
        = ⟨[], .threw "backend A unreachable"⟩ := by
  decide

/-- Claim C8, amended. For a MultiProviderStrategy over [A, B] where the
trackEvent of A is left by an exception, track does not call B: the loop of
sendEvent has no try block, so track ends exactly as the call on A ended, with
the effects and the exception of A and nothing after them. -/
theorem multiProvider_fail_fast (m : MetricsManager) (a b : MetricsClient)
    (name data what : String) (h : (a.trackEvent name data).status = .threw what) :
    (m.setStrategy (.to (.multiProviderStrategy [.to a, .to b]))).track name data
      = a.trackEvent name data := by
  show (callTrackEvent (.to a) name data).seq _ = _
  exact Run.seq_of_threw _ _ what h

/-- Instance of the amended C8: a first target that logs and then throws, and
MixpanelAdapter behind it. -/
theorem multiProvider_fail_fast_witness :
    ((MetricsClient.other
        (fun n _ => ⟨[.foreign n], .threw "backend A unreachable"⟩)).trackEvent
        "UserSignup" "id").status = .threw "backend A unreachable"
    ∧ (MetricsManager.fresh.setStrategy
          (.to (.multiProviderStrategy
            [.to (.other (fun n _ => ⟨[.foreign n], .threw "backend A unreachable"⟩)),
             .to .mixpanelAdapter]))).track "UserSignup" "id"
        = (MetricsClient.other
            (fun n _ => ⟨[.foreign n], .threw "backend A unreachable"⟩)).trackEvent
            "UserSignup" "id" :=
  ⟨rfl, multiProvider_fail_fast MetricsManager.fresh _ .mixpanelAdapter
    "UserSignup" "id" "backend A unreachable" rfl⟩

/-- Claim C9. For every name and payload, trackEvent of each of the three
adapters is exactly one call of the native operation of its own SDK (log, send,
push) with the name as the event and the data as the payload, unchanged and in
that order: its only effect is that one backend call, and the line printed
carries the name before the arrow and the data after it. -/
theorem adapters_forward_once (name data : String) :
    (MetricsClient.googleAnalyticsAdapter.trackEvent name data
        = GoogleAnalyticsSdk.log name data
      ∧ MetricsClient.googleAnalyticsAdapter.trackEvent name data
        = ⟨[.gaSdkLog name data], .returned⟩
      ∧ stdout (MetricsClient.googleAnalyticsAdapter.trackEvent name data)
        = "[GA SDK] " ++ name ++ " -> " ++ data ++ "\n")
    ∧ (MetricsClient.mixpanelAdapter.trackEvent name data
        = MixpanelSdk.send name data
      ∧ MetricsClient.mixpanelAdapter.trackEvent name data
        = ⟨[.mixpanelSdkSend name data], .returned⟩
      ∧ stdout (MetricsClient.mixpanelAdapter.trackEvent name data)
        = "[Mixpanel SDK] " ++ name ++ " -> " ++ data ++ "\n")
    ∧ (MetricsClient.internalAnalyticsAdapter.trackEvent name data
        = InternalAnalyticsSdk.push name data
      ∧ MetricsClient.internalAnalyticsAdapter.trackEvent name data
        = ⟨[.internalSdkPush name data], .returned⟩
      ∧ stdout (MetricsClient.internalAnalyticsAdapter.trackEvent name data)
        = "[Internal SDK] " ++ name ++ " -> " ++ data ++ "\n") :=
  ⟨⟨rfl, rfl, stdout_single _ _⟩, ⟨rfl, rfl, stdout_single _ _⟩,
    ⟨rfl, rfl, stdout_single _ _⟩⟩

end Metrics

/-! ## The checkout flow: properties -/

namespace Checkout

/-- Claim C10. For every amount and every payment object and discount object
that the two factories return for a key, checkout prints the original amount,
calls apply of the discount once on that original amount, prints the value
apply returned, and calls pay of the payment once with exactly that value; then
it returns. -/
theorem checkout_sequential (amount : Float) (pk dk : String)
    (p : PaymentStrategy) (d : DiscountStrategy)
    (hp : PaymentFactory.createPayment pk = .to p)
    (hd : DiscountFactory.createDiscount dk = .to d) :
    CheckoutService.checkout
        ⟨PaymentFactory.createPayment pk, DiscountFactory.createDiscount dk⟩ amount
      = ⟨[.originalAmount amount, .applying d, .finalAmount (d.apply amount).2,
          .paid p (d.apply amount).2], .returned⟩
    ∧ (d.apply amount).1 = Run.emit (.applying d)
    ∧ p.pay (d.apply amount).2 = Run.emit (.paid p (d.apply amount).2) := by
  rw [hp, hd]
  cases d <;> exact ⟨rfl, rfl, rfl⟩

/-- Instance of C10 on the run of main of 1.cpp: keys upi and festival, amount
1000. -/
theorem checkout_sequential_witness :
    PaymentFactory.createPayment "upi" = .to .upiPayment
    ∧ DiscountFactory.createDiscount "festival" = .to .festivalDiscount
    ∧ (CheckoutService.checkout
          ⟨PaymentFactory.createPayment "upi",
            DiscountFactory.createDiscount "festival"⟩ 1000
        = ⟨[.originalAmount 1000, .applying .festivalDiscount,
            .finalAmount (DiscountStrategy.festivalDiscount.apply 1000).2,
            .paid .upiPayment (DiscountStrategy.festivalDiscount.apply 1000).2], .returned⟩
      ∧ (DiscountStrategy.festivalDiscount.apply 1000).1
          = Run.emit (.applying .festivalDiscount)
      ∧ PaymentStrategy.upiPayment.pay (DiscountStrategy.festivalDiscount.apply 1000).2
          = Run.emit (.paid .upiPayment (DiscountStrategy.festivalDiscount.apply 1000).2)) :=
  ⟨by decide, by decide,
    checkout_sequential 1000 "upi" "festival" .upiPayment .festivalDiscount
      (by decide) (by decide)⟩

end Checkout
